import Mathlib

/-!
Shallow embedding of the alert lifecycle engine of the unraid-monitor
repository: the data model in src/alerts/models.py and the manager logic in
src/alerts/manager.py. Numeric values and timestamps are modelled as rationals,
the notification transport outcome as an explicit boolean parameter.
-/

namespace UnraidMonitor

/-- Free-form context mapping attached to readings and states
(dict[str, Any] in the source, carried through unchanged). -/
abbrev Ctx := List (String × String)

/-- AlertLevel enum from models.py. -/
inductive AlertLevel where
  | info
  | warning
  | critical
  | recovery
deriving DecidableEq, Repr

/-- The .value string of each AlertLevel member. -/
def AlertLevel.value : AlertLevel → String
  | .info => "info"
  | .warning => "warning"
  | .critical => "critical"
  | .recovery => "recovery"

/-- Enum lookup AlertLevel(v): the member whose value is v, if any
(a ValueError in Python is modelled as none). -/
def AlertLevel.fromValue (v : String) : Option AlertLevel :=
  if v = "info" then some .info
  else if v = "warning" then some .warning
  else if v = "critical" then some .critical
  else if v = "recovery" then some .recovery
  else none

/-- The local list `order` inside AlertLevel.__lt__. -/
def severityOrder : List AlertLevel := [.info, .warning, .critical]

/-- AlertLevel.__lt__ from models.py: false when either side is missing from
the order list, otherwise compare positions in the list. -/
def AlertLevel.lt (a b : AlertLevel) : Bool :=
  if a ∉ severityOrder ∨ b ∉ severityOrder then false
  else decide (severityOrder.indexOf a < severityOrder.indexOf b)

/-- MetricType enum from models.py. -/
inductive MetricType where
  | cpu
  | memory
  | disk
  | temperature
  | docker_container
  | docker_restart
  | service_health
  | array_status
deriving DecidableEq, Repr

/-- The .value string of each MetricType member. -/
def MetricType.value : MetricType → String
  | .cpu => "cpu"
  | .memory => "memory"
  | .disk => "disk"
  | .temperature => "temperature"
  | .docker_container => "docker_container"
  | .docker_restart => "docker_restart"
  | .service_health => "service_health"
  | .array_status => "array_status"

/-- An ISO-8601 timestamp string. datetime.isoformat and
datetime.fromisoformat are mutually inverse on datetimes, so the rendered
string is modelled as a tagged copy of the timestamp it encodes. -/
structure IsoString where
  stamp : ℚ
deriving DecidableEq, Repr

/-- datetime.isoformat. -/
def isoformat (t : ℚ) : IsoString := ⟨t⟩

/-- datetime.fromisoformat. -/
def fromisoformat (s : IsoString) : ℚ := s.stamp

/-- AlertState dataclass from models.py. Timestamps are rational instants. -/
structure AlertState where
  alert_key : String
  current_value : Option ℚ := none
  threshold_value : Option ℚ := none
  level : AlertLevel := .warning
  is_active : Bool := false
  first_triggered : Option ℚ := none
  last_alert_sent : Option ℚ := none
  trigger_count : Nat := 0
  context : Ctx := []
deriving DecidableEq, Repr

/-- The flat record produced by AlertState.to_dict, one field per dict key. -/
structure AlertStateDict where
  alert_key : String
  current_value : Option ℚ
  threshold_value : Option ℚ
  level : Option String
  is_active : Bool
  first_triggered : Option IsoString
  last_alert_sent : Option IsoString
  trigger_count : Nat
  context : Ctx
deriving DecidableEq, Repr

/-- AlertState.to_dict from models.py. `self.level.value if self.level else
None`: an enum member is always truthy, so the level field is always the
member value. Optional timestamps render via isoformat, absent ones as null. -/
def AlertState.to_dict (s : AlertState) : AlertStateDict :=
  { alert_key := s.alert_key
    current_value := s.current_value
    threshold_value := s.threshold_value
    level := some s.level.value
    is_active := s.is_active
    first_triggered := s.first_triggered.map isoformat
    last_alert_sent := s.last_alert_sent.map isoformat
    trigger_count := s.trigger_count
    context := s.context }

/-- Python truthiness of an optional string: None and "" are falsy. -/
def strTruthy : Option String → Bool
  | none => false
  | some s => !s.isEmpty

/-- AlertState.from_dict from models.py. An unknown level string raises
ValueError in Python, modelled as none; a falsy level field defaults to
WARNING. Optional timestamps parse via fromisoformat when truthy. -/
def AlertState.from_dict (d : AlertStateDict) : Option AlertState :=
  let lvl? : Option AlertLevel :=
    if strTruthy d.level then AlertLevel.fromValue (d.level.getD "")
    else some .warning
  lvl?.map fun lvl =>
    { alert_key := d.alert_key
      current_value := d.current_value
      threshold_value := d.threshold_value
      level := lvl
      is_active := d.is_active
      first_triggered := d.first_triggered.map fromisoformat
      last_alert_sent := d.last_alert_sent.map fromisoformat
      trigger_count := d.trigger_count
      context := d.context }

/-- MetricReading dataclass from models.py. -/
structure MetricReading where
  metric_type : MetricType
  metric_id : String
  name : String
  value : ℚ
  unit : String := "%"
  warning_threshold : Option ℚ := none
  critical_threshold : Option ℚ := none
  context : Ctx := []
  timestamp : ℚ := 0
deriving DecidableEq, Repr

/-- MetricReading.get_alert_level from models.py: critical threshold checked
first, then warning; none when neither present threshold is reached. -/
def MetricReading.get_alert_level (r : MetricReading) : Option AlertLevel :=
  if r.critical_threshold.any (fun c => decide (c ≤ r.value)) then some .critical
  else if r.warning_threshold.any (fun w => decide (w ≤ r.value)) then some .warning
  else none

/-- Python `x or 0` on an optional number: None and 0.0 are falsy, so both
fall through to 0. -/
def pyOrZero : Option ℚ → ℚ
  | none => 0
  | some x => if x = 0 then 0 else x

/-- MetricReading.is_above_threshold from models.py: value is at or above the
warning threshold (0 when absent) minus the hysteresis buffer. -/
def MetricReading.is_above_threshold (r : MetricReading)
    (hysteresis_percent : ℚ) : Bool :=
  decide (pyOrZero r.warning_threshold - hysteresis_percent ≤ r.value)

/-- AlertsConfig dataclass from config.py. -/
structure AlertsConfig where
  cooldown_minutes : ℚ := 30
  recovery_enabled : Bool := true
  hysteresis_percent : ℚ := 5
deriving DecidableEq, Repr

/-- The shape of a notification handed to the transport: a threshold alert
(possibly framed as escalated, possibly carrying the active duration) or a
recovery message. -/
inductive Dispatch where
  | alert (level : AlertLevel) (escalated : Bool) (includeDuration : Bool)
  | recovery
deriving DecidableEq, Repr

/-- Result of one engine call: the returned boolean, the updated state for the
readings key, and the dispatch attempted against the transport, if any. -/
structure ProcessResult where
  sent : Bool
  state : AlertState
  dispatch : Option Dispatch
deriving DecidableEq, Repr

namespace AlertManager

/-- AlertManager._is_in_cooldown from manager.py: false when never sent,
otherwise whether the elapsed time since last_alert_sent is under the
configured cooldown window (minutes, so times 60 in seconds). -/
def is_in_cooldown (cfg : AlertsConfig) (now : ℚ) (state : AlertState) : Bool :=
  match state.last_alert_sent with
  | none => false
  | some t => decide (now - t < cfg.cooldown_minutes * 60)

/-- AlertManager._should_escalate from manager.py. -/
def should_escalate (state : AlertState) (new_level : AlertLevel) : Bool :=
  if state.is_active = false then false
  else decide (new_level = .critical ∧ state.level = .warning)

/-- AlertManager._send_alert from manager.py: the transport outcome is the
sendOk parameter; last_alert_sent is stamped only on success. -/
def send_alert (sendOk : Bool) (now : ℚ) (state : AlertState) :
    Bool × AlertState :=
  if sendOk then (true, { state with last_alert_sent := some now })
  else (false, state)

/-- AlertManager._handle_threshold_exceeded from manager.py. -/
def handle_threshold_exceeded (sendOk : Bool) (cfg : AlertsConfig) (now : ℚ)
    (state : AlertState) (reading : MetricReading) (level : AlertLevel) :
    ProcessResult :=
  let state := { state with
    threshold_value :=
      if level = .critical then reading.critical_threshold
      else reading.warning_threshold
    context := reading.context }
  if state.is_active = false then
    let state := { state with
      is_active := true
      first_triggered := some now
      level := level
      trigger_count := 1 }
    let r := send_alert sendOk now state
    { sent := r.1, state := r.2, dispatch := some (.alert level false false) }
  else if should_escalate state level then
    let state := { state with
      level := level
      trigger_count := state.trigger_count + 1 }
    let r := send_alert sendOk now state
    { sent := r.1, state := r.2, dispatch := some (.alert level true false) }
  else if is_in_cooldown cfg now state = false then
    let state := { state with trigger_count := state.trigger_count + 1 }
    let r := send_alert sendOk now state
    { sent := r.1, state := r.2, dispatch := some (.alert level false true) }
  else
    { sent := false, state := state, dispatch := none }

/-- AlertManager._handle_recovery from manager.py: bail inside the hysteresis
band; otherwise optionally dispatch a recovery message (which never touches
last_alert_sent) and reset is_active, first_triggered and level. -/
def handle_recovery (sendOk : Bool) (cfg : AlertsConfig)
    (state : AlertState) (reading : MetricReading) : ProcessResult :=
  if reading.is_above_threshold cfg.hysteresis_percent then
    { sent := false, state := state, dispatch := none }
  else
    let sent := if cfg.recovery_enabled then sendOk else false
    let disp : Option Dispatch :=
      if cfg.recovery_enabled then some .recovery else none
    { sent := sent
      state := { state with
        is_active := false
        first_triggered := none
        level := .warning }
      dispatch := disp }

/-- The alert key computed at the top of process_reading. -/
def readingKey (r : MetricReading) : String :=
  r.metric_type.value ++ "_" ++ r.metric_id

/-- AlertManager.process_reading from manager.py, acting on the stored state
for the readings key (none when no state exists yet). -/
def process_reading (sendOk : Bool) (cfg : AlertsConfig) (now : ℚ)
    (stored : Option AlertState) (reading : MetricReading) : ProcessResult :=
  let state := stored.getD { alert_key := readingKey reading }
  let state := { state with current_value := some reading.value }
  match reading.get_alert_level with
  | some level => handle_threshold_exceeded sendOk cfg now state reading level
  | none =>
    if state.is_active then handle_recovery sendOk cfg state reading
    else { sent := false, state := state, dispatch := none }

/-- AlertManager.process_container_alert from manager.py, acting on the stored
state for the container/issue key. -/
def process_container_alert (sendOk : Bool) (cfg : AlertsConfig) (now : ℚ)
    (stored : Option AlertState) (container_name issue_type : String)
    (level : AlertLevel) : Bool × AlertState :=
  let key := "container_" ++ container_name ++ "_" ++ issue_type
  let state := stored.getD { alert_key := key }
  if state.is_active && is_in_cooldown cfg now state then
    (false, state)
  else if sendOk then
    let state :=
      if state.is_active = false then
        { state with
          is_active := true
          first_triggered := some now
          trigger_count := 1 }
      else
        { state with trigger_count := state.trigger_count + 1 }
    (true, { state with level := level, last_alert_sent := some now })
  else
    (false, state)

/-- AlertManager.clear_container_alert from manager.py, acting on the stored
state for the container/issue key. -/
def clear_container_alert (sendOk : Bool) (cfg : AlertsConfig)
    (stored : Option AlertState) : Bool × Option AlertState :=
  match stored with
  | none => (false, none)
  | some state =>
    if state.is_active = false then (false, some state)
    else
      let sent := if cfg.recovery_enabled then sendOk else false
      (sent, some { state with is_active := false, first_triggered := none })

end AlertManager

open AlertManager

/-! Helper lemmas shared by the claim theorems. -/

theorem pyOrZero_some (w : ℚ) : pyOrZero (some w) = w := by
  by_cases h : w = 0 <;> simp [pyOrZero, h]

/-! C7 -/

/-- C7: deserializing the serialized form of any AlertState yields the state
back, field for field, including absent timestamp fields (serialized as null)
and the nested context mapping. -/
theorem c7_state_dict_roundtrip (s : AlertState) :
    AlertState.from_dict (AlertState.to_dict s) = some s := by
  cases s with
  | mk alert_key current_value threshold_value level is_active first_triggered
      last_alert_sent trigger_count context =>
    cases level <;>
      cases first_triggered <;>
        cases last_alert_sent <;>
          simp only [AlertState.to_dict, AlertState.from_dict, AlertLevel.value,
            AlertLevel.fromValue, strTruthy, isoformat, fromisoformat,
            Option.map] <;> rfl

/-! C9 -/

/-- C9 counterexample: INFO takes part in the severity order of
AlertLevel.__lt__ — comparing INFO with WARNING yields true, refuting that
every comparison in which an operand is INFO returns false. -/
theorem c9_info_comparison_is_true :
    AlertLevel.lt .info .warning = true := by decide

/-- C9 amended: the severity order is defined over INFO, WARNING and CRITICAL
with INFO < WARNING < CRITICAL (so WARNING < CRITICAL holds); every comparison
in which either operand is RECOVERY returns false. -/
theorem c9_severity_order_characterization :
    ∀ a b : AlertLevel, AlertLevel.lt a b = true ↔
      ((a = .info ∧ (b = .warning ∨ b = .critical)) ∨
        (a = .warning ∧ b = .critical)) := by
  intro a b
  cases a <;> cases b <;> decide

/-! C1 -/

/-- C1: an active WARNING alert receiving a CRITICAL reading escalates: the
notification is dispatched whatever last_alert_sent holds (the cooldown check
is never consulted), the level becomes CRITICAL and trigger_count grows by
exactly one; the returned flag is the transport outcome. -/
theorem c1_escalation_bypasses_cooldown
    (sendOk : Bool) (cfg : AlertsConfig) (now : ℚ)
    (state : AlertState) (reading : MetricReading)
    (hact : state.is_active = true)
    (hlvl : state.level = .warning)
    (hcls : reading.get_alert_level = some .critical) :
    (process_reading sendOk cfg now (some state) reading).dispatch
        = some (.alert .critical true false)
      ∧ (process_reading sendOk cfg now (some state) reading).sent = sendOk
      ∧ (process_reading sendOk cfg now (some state) reading).state.level
          = .critical
      ∧ (process_reading sendOk cfg now (some state) reading).state.trigger_count
          = state.trigger_count + 1 := by
  simp only [process_reading, Option.getD, hcls]
  simp [handle_threshold_exceeded, hact, should_escalate, hlvl, send_alert]
  cases sendOk <;> simp

def c1State : AlertState :=
  { alert_key := "cpu_cpu", is_active := true, level := .warning,
    last_alert_sent := some 999, trigger_count := 1 }

def c1Reading : MetricReading :=
  { metric_type := .cpu, metric_id := "cpu", name := "CPU", value := 96,
    warning_threshold := some 80, critical_threshold := some 95 }

/-- C1 witness: the escalation theorem applied to an active WARNING alert one
second after its last dispatch, with the default 30 minute cooldown. -/
theorem c1_escalation_bypasses_cooldown_witness :
    (process_reading true {} 1000 (some c1State) c1Reading).dispatch
        = some (.alert .critical true false)
      ∧ (process_reading true {} 1000 (some c1State) c1Reading).sent = true
      ∧ (process_reading true {} 1000 (some c1State) c1Reading).state.level
          = .critical
      ∧ (process_reading true {} 1000 (some c1State) c1Reading).state.trigger_count
          = c1State.trigger_count + 1 :=
  c1_escalation_bypasses_cooldown true {} 1000 c1State c1Reading
    (by decide) (by decide) (by decide)

/-! C8 -/

/-- C8: once recovery proceeds, the reset sets exactly is_active := false,
first_triggered := none and level := WARNING, while trigger_count,
last_alert_sent, current_value and threshold_value are untouched by it. -/
theorem c8_recovery_reset_frame
    (sendOk : Bool) (cfg : AlertsConfig)
    (state : AlertState) (reading : MetricReading)
    (hrec : reading.is_above_threshold cfg.hysteresis_percent = false) :
    (handle_recovery sendOk cfg state reading).state.is_active = false
      ∧ (handle_recovery sendOk cfg state reading).state.first_triggered = none
      ∧ (handle_recovery sendOk cfg state reading).state.level = .warning
      ∧ (handle_recovery sendOk cfg state reading).state.trigger_count
          = state.trigger_count
      ∧ (handle_recovery sendOk cfg state reading).state.last_alert_sent
          = state.last_alert_sent
      ∧ (handle_recovery sendOk cfg state reading).state.current_value
          = state.current_value
      ∧ (handle_recovery sendOk cfg state reading).state.threshold_value
          = state.threshold_value := by
  simp [handle_recovery, hrec]

def c8State : AlertState :=
  { alert_key := "cpu_cpu", is_active := true, level := .critical,
    current_value := some 74, threshold_value := some 80,
    last_alert_sent := some 500, first_triggered := some 400,
    trigger_count := 3 }

def c8Reading : MetricReading :=
  { metric_type := .cpu, metric_id := "cpu", name := "CPU", value := 74,
    warning_threshold := some 80, critical_threshold := some 95 }

/-- C8 witness: the recovery reset theorem applied to a recovering CRITICAL
alert at value 74 with warning threshold 80 and hysteresis 5. -/
theorem c8_recovery_reset_frame_witness :
    (handle_recovery true {} c8State c8Reading).state.is_active = false
      ∧ (handle_recovery true {} c8State c8Reading).state.first_triggered = none
      ∧ (handle_recovery true {} c8State c8Reading).state.level = .warning
      ∧ (handle_recovery true {} c8State c8Reading).state.trigger_count
          = c8State.trigger_count
      ∧ (handle_recovery true {} c8State c8Reading).state.last_alert_sent
          = c8State.last_alert_sent
      ∧ (handle_recovery true {} c8State c8Reading).state.current_value
          = c8State.current_value
      ∧ (handle_recovery true {} c8State c8Reading).state.threshold_value
          = c8State.threshold_value :=
  c8_recovery_reset_frame true {} c8State c8Reading (by with_unfolding_all rfl)

/-! C2 -/

/-- C2: with an active alert and a reading that classifies as none while
carrying warning threshold w, recovery happens exactly when the value is
strictly below w minus the hysteresis buffer; at or above that floor the
alert stays active and the call returns false. -/
theorem c2_recovery_hysteresis_boundary
    (sendOk : Bool) (cfg : AlertsConfig) (now w : ℚ)
    (state : AlertState) (reading : MetricReading)
    (hact : state.is_active = true)
    (hcls : reading.get_alert_level = none)
    (hw : reading.warning_threshold = some w) :
    ((process_reading sendOk cfg now (some state) reading).state.is_active = false
        ↔ reading.value < w - cfg.hysteresis_percent)
      ∧ (w - cfg.hysteresis_percent ≤ reading.value →
          (process_reading sendOk cfg now (some state) reading).sent = false
            ∧ (process_reading sendOk cfg now (some state) reading).state.is_active
                = true) := by
  have hpy : pyOrZero reading.warning_threshold = w := by
    rw [hw]; exact pyOrZero_some w
  by_cases hband : w - cfg.hysteresis_percent ≤ reading.value
  · simp [process_reading, hcls, hact, handle_recovery,
      MetricReading.is_above_threshold, hpy, hband, not_lt.mpr hband]
  · simp [process_reading, hcls, hact, handle_recovery,
      MetricReading.is_above_threshold, hpy, hband, not_le.mp hband]

def c2State : AlertState :=
  { alert_key := "cpu_cpu", is_active := true, level := .warning,
    first_triggered := some 0, last_alert_sent := some 0, trigger_count := 1 }

def c2Read78 : MetricReading :=
  { metric_type := .cpu, metric_id := "cpu", name := "CPU", value := 78,
    warning_threshold := some 80, critical_threshold := some 95 }

def c2Read74 : MetricReading :=
  { metric_type := .cpu, metric_id := "cpu", name := "CPU", value := 74,
    warning_threshold := some 80, critical_threshold := some 95 }

/-- C2 witness: the hysteresis theorem applied with warning threshold 80 and
hysteresis 5 — a reading of 78 stays active and returns false, a reading of
74 recovers. -/
theorem c2_recovery_hysteresis_boundary_witness :
    ((process_reading true {} 100 (some c2State) c2Read78).sent = false
        ∧ (process_reading true {} 100 (some c2State) c2Read78).state.is_active
            = true)
      ∧ (process_reading true {} 100 (some c2State) c2Read74).state.is_active
          = false :=
  ⟨(c2_recovery_hysteresis_boundary true {} 100 80 c2State c2Read78
      (by decide) (by decide) (by decide)).2 (by norm_num [c2Read78]),
    (c2_recovery_hysteresis_boundary true {} 100 80 c2State c2Read74
      (by decide) (by decide) (by decide)).1.mpr (by norm_num [c2Read74])⟩

/-! C4 -/

/-- C4: an active alert hit again at a non-escalating severity inside the
cooldown window dispatches nothing and returns false, keeps trigger_count and
last_alert_sent as they were, yet records the new current_value, the crossed
threshold_value and the new context. -/
theorem c4_cooldown_suppression_frame
    (sendOk : Bool) (cfg : AlertsConfig) (now t : ℚ)
    (state : AlertState) (reading : MetricReading) (lvl : AlertLevel)
    (hact : state.is_active = true)
    (hcls : reading.get_alert_level = some lvl)
    (hnoesc : ¬(lvl = .critical ∧ state.level = .warning))
    (hlast : state.last_alert_sent = some t)
    (hcool : now - t < cfg.cooldown_minutes * 60) :
    (process_reading sendOk cfg now (some state) reading).sent = false
      ∧ (process_reading sendOk cfg now (some state) reading).dispatch = none
      ∧ (process_reading sendOk cfg now (some state) reading).state.trigger_count
          = state.trigger_count
      ∧ (process_reading sendOk cfg now (some state) reading).state.last_alert_sent
          = state.last_alert_sent
      ∧ (process_reading sendOk cfg now (some state) reading).state.current_value
          = some reading.value
      ∧ (process_reading sendOk cfg now (some state) reading).state.threshold_value
          = (if lvl = .critical then reading.critical_threshold
             else reading.warning_threshold)
      ∧ (process_reading sendOk cfg now (some state) reading).state.context
          = reading.context := by
  simp only [process_reading, Option.getD, hcls]
  simp [handle_threshold_exceeded, hact, should_escalate, hnoesc,
    is_in_cooldown, hlast, hcool]

def c4State : AlertState :=
  { alert_key := "cpu_cpu", is_active := true, level := .warning,
    first_triggered := some 900, last_alert_sent := some 1000,
    trigger_count := 2 }

def c4Reading : MetricReading :=
  { metric_type := .cpu, metric_id := "cpu", name := "CPU", value := 86,
    warning_threshold := some 80, critical_threshold := some 95,
    context := [("core", "0")] }

/-- C4 witness: the cooldown-suppression theorem one second after the last
dispatch with the default 30 minute cooldown, at an unchanged WARNING
severity. -/
theorem c4_cooldown_suppression_frame_witness :
    (process_reading true {} 1001 (some c4State) c4Reading).sent = false
      ∧ (process_reading true {} 1001 (some c4State) c4Reading).dispatch = none
      ∧ (process_reading true {} 1001 (some c4State) c4Reading).state.trigger_count
          = c4State.trigger_count
      ∧ (process_reading true {} 1001 (some c4State) c4Reading).state.last_alert_sent
          = c4State.last_alert_sent
      ∧ (process_reading true {} 1001 (some c4State) c4Reading).state.current_value
          = some c4Reading.value
      ∧ (process_reading true {} 1001 (some c4State) c4Reading).state.threshold_value
          = (if AlertLevel.warning = .critical then c4Reading.critical_threshold
             else c4Reading.warning_threshold)
      ∧ (process_reading true {} 1001 (some c4State) c4Reading).state.context
          = c4Reading.context :=
  c4_cooldown_suppression_frame true {} 1001 1000 c4State c4Reading .warning
    (by decide) (by decide) (by decide) (by decide) (by norm_num)

/-! C6 -/

/-- C6: a breaching reading for a key with no stored state, or a stored
inactive state, always dispatches whatever the cooldown configuration says,
activates the alert, stamps first_triggered, adopts the classified severity
and sets trigger_count to 1; the returned flag is the transport outcome. -/
theorem c6_first_alert_always_fires
    (sendOk : Bool) (cfg : AlertsConfig) (now : ℚ)
    (stored : Option AlertState) (reading : MetricReading) (lvl : AlertLevel)
    (hinact : (stored.map AlertState.is_active).getD false = false)
    (hcls : reading.get_alert_level = some lvl) :
    (process_reading sendOk cfg now stored reading).dispatch
        = some (.alert lvl false false)
      ∧ (process_reading sendOk cfg now stored reading).sent = sendOk
      ∧ (process_reading sendOk cfg now stored reading).state.is_active = true
      ∧ (process_reading sendOk cfg now stored reading).state.first_triggered
          = some now
      ∧ (process_reading sendOk cfg now stored reading).state.level = lvl
      ∧ (process_reading sendOk cfg now stored reading).state.trigger_count
          = 1 := by
  cases stored with
  | none =>
    simp only [process_reading, Option.getD, hcls]
    simp [handle_threshold_exceeded, send_alert]
    cases sendOk <;> simp
  | some s =>
    simp only [Option.map, Option.getD] at hinact
    simp only [process_reading, Option.getD, hcls]
    simp [handle_threshold_exceeded, hinact, send_alert]
    cases sendOk <;> simp

def c6Reading : MetricReading :=
  { metric_type := .cpu, metric_id := "cpu", name := "CPU", value := 85,
    warning_threshold := some 80, critical_threshold := some 95 }

/-- C6 witness: the first-alert theorem on a brand-new key with a one-minute
cooldown configured, WARNING classification at value 85. -/
theorem c6_first_alert_always_fires_witness :
    (process_reading true {} 7 none c6Reading).dispatch
        = some (.alert .warning false false)
      ∧ (process_reading true {} 7 none c6Reading).sent = true
      ∧ (process_reading true {} 7 none c6Reading).state.is_active = true
      ∧ (process_reading true {} 7 none c6Reading).state.first_triggered
          = some 7
      ∧ (process_reading true {} 7 none c6Reading).state.level = .warning
      ∧ (process_reading true {} 7 none c6Reading).state.trigger_count = 1 :=
  c6_first_alert_always_fires true {} 7 none c6Reading .warning
    (by decide) (by decide)

/-! C5 -/

theorem dispatch_attempted_of_no_last_sent
    (sendOk : Bool) (cfg : AlertsConfig) (now : ℚ) (state : AlertState)
    (reading : MetricReading) (lvl : AlertLevel)
    (hcls : reading.get_alert_level = some lvl)
    (hnone : state.last_alert_sent = none) :
    (process_reading sendOk cfg now (some state) reading).dispatch.isSome
        = true := by
  simp only [process_reading, Option.getD, hcls]
  simp only [handle_threshold_exceeded]
  split_ifs <;> simp_all [is_in_cooldown, hnone]

/-- C5: when the transport fails on a threshold dispatch, last_alert_sent is
left as it was; in particular, for a state that never dispatched
successfully, the next breaching reading right afterwards is not held back by
cooldown and the engine attempts to dispatch again. -/
theorem c5_failed_dispatch_keeps_cooldown_unarmed
    (cfg : AlertsConfig) (now now2 : ℚ) (state : AlertState)
    (reading reading2 : MetricReading) (lvl : AlertLevel)
    (hcls : reading.get_alert_level = some lvl) :
    (process_reading false cfg now (some state) reading).state.last_alert_sent
        = state.last_alert_sent
      ∧ (state.last_alert_sent = none →
          ∀ (sendOk2 : Bool) (lvl2 : AlertLevel),
            reading2.get_alert_level = some lvl2 →
              (process_reading sendOk2 cfg now2
                  (some (process_reading false cfg now (some state) reading).state)
                  reading2).dispatch.isSome = true) := by
  have hlast : (process_reading false cfg now (some state) reading).state.last_alert_sent
      = state.last_alert_sent := by
    simp only [process_reading, Option.getD, hcls]
    simp only [handle_threshold_exceeded]
    split_ifs <;> simp [send_alert]
  refine ⟨hlast, fun hnone sendOk2 lvl2 hcls2 => ?_⟩
  exact dispatch_attempted_of_no_last_sent sendOk2 cfg now2 _ reading2 lvl2
    hcls2 (hlast.trans hnone)

def c5State : AlertState :=
  { alert_key := "cpu_cpu" }

def c5Reading : MetricReading :=
  { metric_type := .cpu, metric_id := "cpu", name := "CPU", value := 85,
    warning_threshold := some 80, critical_threshold := some 95 }

/-- C5 witness: a first dispatch whose transport fails leaves last_alert_sent
empty, and the same reading arriving one second later still attempts a
dispatch. -/
theorem c5_failed_dispatch_keeps_cooldown_unarmed_witness :
    (process_reading false {} 0 (some c5State) c5Reading).state.last_alert_sent
        = c5State.last_alert_sent
      ∧ (process_reading true {} 1
          (some (process_reading false {} 0 (some c5State) c5Reading).state)
          c5Reading).dispatch.isSome = true :=
  ⟨(c5_failed_dispatch_keeps_cooldown_unarmed {} 0 1 c5State c5Reading
      c5Reading .warning (by decide)).1,
    (c5_failed_dispatch_keeps_cooldown_unarmed {} 0 1 c5State c5Reading
      c5Reading .warning (by decide)).2 (by decide) true .warning (by decide)⟩

/-! C10 -/

theorem handle_threshold_exceeded_keeps_active
    (sendOk : Bool) (cfg : AlertsConfig) (now : ℚ)
    (state : AlertState) (reading : MetricReading) (lvl : AlertLevel)
    (hact : state.is_active = true) :
    (handle_threshold_exceeded sendOk cfg now state reading lvl).state.is_active
        = true
      ∧ (handle_threshold_exceeded sendOk cfg now state reading lvl).dispatch
          ≠ some .recovery := by
  simp only [handle_threshold_exceeded]
  split_ifs <;> cases sendOk <;> simp_all [send_alert]

/-- C10: an active alert fed readings that carry no warning threshold (only a
critical one) can never recover as long as values and the configured
hysteresis are non-negative: is_above_threshold falls back to 0 for the
missing warning threshold, the hysteresis test always passes, and the alert
stays active with no recovery dispatch. -/
theorem c10_no_warning_threshold_never_recovers
    (sendOk : Bool) (cfg : AlertsConfig) (now : ℚ)
    (state : AlertState) (reading : MetricReading)
    (hact : state.is_active = true)
    (hw : reading.warning_threshold = none)
    (_hc : reading.critical_threshold ≠ none)
    (hv : 0 ≤ reading.value)
    (hh : 0 ≤ cfg.hysteresis_percent) :
    reading.is_above_threshold cfg.hysteresis_percent = true
      ∧ (process_reading sendOk cfg now (some state) reading).state.is_active
          = true
      ∧ (process_reading sendOk cfg now (some state) reading).dispatch
          ≠ some .recovery := by
  have habove : reading.is_above_threshold cfg.hysteresis_percent = true := by
    simp only [MetricReading.is_above_threshold, hw, pyOrZero,
      decide_eq_true_eq]
    linarith
  refine ⟨habove, ?_⟩
  cases hcl : reading.get_alert_level with
  | none =>
    simp [process_reading, hcl, hact, handle_recovery, habove]
  | some lvl =>
    simp only [process_reading, Option.getD, hcl]
    exact handle_threshold_exceeded_keeps_active sendOk cfg now _ reading lvl hact

def c10State : AlertState :=
  { alert_key := "temperature_sda", is_active := true, level := .critical,
    first_triggered := some 0, last_alert_sent := some 0, trigger_count := 4 }

def c10Reading : MetricReading :=
  { metric_type := .temperature, metric_id := "sda", name := "sda", value := 50,
    critical_threshold := some 90 }

/-- C10 witness: an active critical-only temperature alert at a cooled-down
value of 50 still passes the hysteresis test and stays active. -/
theorem c10_no_warning_threshold_never_recovers_witness :
    c10Reading.is_above_threshold
        ({} : AlertsConfig).hysteresis_percent = true
      ∧ (process_reading true {} 100 (some c10State) c10Reading).state.is_active
          = true
      ∧ (process_reading true {} 100 (some c10State) c10Reading).dispatch
          ≠ some .recovery :=
  c10_no_warning_threshold_never_recovers true {} 100 c10State c10Reading
    (by decide) (by decide) (by decide) (by decide) (by decide)

/-! C3 -/

def c3State : AlertState :=
  { alert_key := "cpu_cpu", is_active := false, trigger_count := 5 }

def c3Reading : MetricReading :=
  { metric_type := .cpu, metric_id := "cpu", name := "CPU", value := 90,
    warning_threshold := some 80 }

/-- C3 counterexample: process_reading on an inactive state whose historical
trigger_count is 5 activates a new alert and resets the counter to 1,
strictly smaller than before the call. -/
theorem c3_trigger_count_can_decrease :
    (process_reading true {} 0 (some c3State) c3Reading).state.trigger_count
      < c3State.trigger_count := by decide

theorem process_reading_trigger_count
    (sendOk : Bool) (cfg : AlertsConfig) (now : ℚ)
    (stored : Option AlertState) (reading : MetricReading) :
    (stored.map AlertState.trigger_count).getD 0
        ≤ (process_reading sendOk cfg now stored reading).state.trigger_count
      ∨ ((process_reading sendOk cfg now stored reading).state.trigger_count = 1
          ∧ (stored.map AlertState.is_active).getD false = false) := by
  cases stored with
  | none => left; simp
  | some s =>
    simp only [Option.map, Option.getD]
    cases hcl : reading.get_alert_level with
    | none =>
      left
      simp only [process_reading, Option.getD, hcl]
      by_cases hsa : s.is_active <;>
        simp [hsa, handle_recovery] <;> split <;> simp
    | some lvl =>
      by_cases hsa : s.is_active
      · left
        simp only [process_reading, Option.getD, hcl]
        simp only [handle_threshold_exceeded]
        split_ifs <;> cases sendOk <;> simp_all [send_alert]
      · right
        constructor
        · simp only [process_reading, Option.getD, hcl]
          simp only [handle_threshold_exceeded]
          split_ifs <;> cases sendOk <;> simp_all [send_alert]
        · simpa using hsa

theorem process_container_alert_trigger_count
    (sendOk : Bool) (cfg : AlertsConfig) (now : ℚ)
    (stored : Option AlertState) (container_name issue_type : String)
    (level : AlertLevel) :
    (stored.map AlertState.trigger_count).getD 0
        ≤ (process_container_alert sendOk cfg now stored container_name
            issue_type level).2.trigger_count
      ∨ ((process_container_alert sendOk cfg now stored container_name
            issue_type level).2.trigger_count = 1
          ∧ (stored.map AlertState.is_active).getD false = false) := by
  cases stored with
  | none => left; simp
  | some s =>
    simp only [Option.map, Option.getD]
    by_cases hsa : s.is_active
    · left
      simp only [process_container_alert, Option.getD]
      split_ifs <;> simp_all
    · simp only [process_container_alert, Option.getD]
      split_ifs <;> simp_all

theorem clear_container_alert_trigger_count
    (sendOk : Bool) (cfg : AlertsConfig) (stored : Option AlertState) :
    (clear_container_alert sendOk cfg stored).2.map AlertState.trigger_count
        = stored.map AlertState.trigger_count := by
  cases stored with
  | none => rfl
  | some s =>
    by_cases h : s.is_active = false <;> simp [clear_container_alert, h]

/-- C3 amended: across process_reading, process_container_alert and
clear_container_alert, the trigger_count for a key never gets smaller, except
that an inactive-to-active transition starts a new alert cycle and resets it
to 1; clear_container_alert always preserves it exactly. -/
theorem c3_trigger_count_monotone_outside_activation
    (sendOk : Bool) (cfg : AlertsConfig) (now : ℚ)
    (stored : Option AlertState) (reading : MetricReading)
    (container_name issue_type : String) (level : AlertLevel) :
    ((stored.map AlertState.trigger_count).getD 0
        ≤ (process_reading sendOk cfg now stored reading).state.trigger_count
      ∨ ((process_reading sendOk cfg now stored reading).state.trigger_count = 1
          ∧ (stored.map AlertState.is_active).getD false = false))
    ∧ ((stored.map AlertState.trigger_count).getD 0
        ≤ (process_container_alert sendOk cfg now stored container_name
            issue_type level).2.trigger_count
      ∨ ((process_container_alert sendOk cfg now stored container_name
            issue_type level).2.trigger_count = 1
          ∧ (stored.map AlertState.is_active).getD false = false))
    ∧ ((clear_container_alert sendOk cfg stored).2.map AlertState.trigger_count
        = stored.map AlertState.trigger_count) :=
  ⟨process_reading_trigger_count sendOk cfg now stored reading,
    process_container_alert_trigger_count sendOk cfg now stored container_name
      issue_type level,
    clear_container_alert_trigger_count sendOk cfg stored⟩

end UnraidMonitor
